import Mathlib

/-!
Shallow embedding of the wpl-tracking-portal2 shipment-tracking portal.

Sources embedded here:
* the client list page (deriveStatus, parseDateMs, getReference, getRoute and
  the sort comparator of filteredAndSorted);
* the detail page (MILESTONES and inferMilestoneIndex);
* the server list route (GET of api/shipments) and the server detail route
  (GET of api/shipments with a shipment id path parameter).

Strings coming from JavaScript are modelled over their character lists; the
helpers below reproduce toUpperCase, toLowerCase, trim and includes on
character lists (ASCII case mapping, core whitespace — the shared behaviour of
the JavaScript runtime and this model on the inputs the theorems use).
The external datastore is modelled as in-memory tables; its ILIKE operator is
modelled with the documented SQL wildcard semantics for the percent and
underscore characters (escape sequences are not modelled, and theorems that
claim equality semantics restrict patterns to wildcard-free strings).
-/

/-- Character-list form of the toUpperCase of a JavaScript string. -/
def jsUpper (s : String) : List Char := s.toList.map Char.toUpper

/-- Character-list form of the toLowerCase of a JavaScript string. -/
def jsLowerChars (cs : List Char) : List Char := cs.map Char.toLower

/-- trim on a character list: drop whitespace from both ends. -/
def trimChars (cs : List Char) : List Char :=
  ((cs.dropWhile Char.isWhitespace).reverse.dropWhile Char.isWhitespace).reverse

/-- Whether the first list is an initial segment of the second. -/
def startsWithChars : List Char → List Char → Bool
  | [], _ => true
  | _ :: _, [] => false
  | a :: as, b :: bs => a == b && startsWithChars as bs

/-- Whether the first list occurs contiguously inside the second. -/
def hasSubChars (needle : List Char) : List Char → Bool
  | [] => needle.isEmpty
  | c :: t => startsWithChars needle (c :: t) || hasSubChars needle t

/-- The includes test of JavaScript strings: the needle occurs contiguously in
the haystack. -/
def jsIncludes (hay : List Char) (needle : String) : Bool :=
  hasSubChars needle.toList hay

/-- Case-insensitive string equality as both endpoints compute it: compare the
character lists after lowercasing (models toLowerCase equality). -/
def lowerEqB (s t : String) : Bool :=
  jsLowerChars s.toList == jsLowerChars t.toList

/-- The client Shipment record of the list page: the fields selected by the
list endpoint plus the attached latest event code.  Nullable text columns are
options. -/
structure Shipment where
  shipment_id : String
  hawb : Option String
  mawb : Option String
  po_number : Option String
  customer_reference : Option String
  origin : Option String
  destination : Option String
  current_status : Option String
  eta_updated : Option String
  last_event_time : Option String
  latest_event_code : Option String
deriving DecidableEq, Repr

/-- Normalised event code used by deriveStatus: null coalesced to the empty
string, uppercased, then trimmed, in source order. -/
def normEventCode (o : Option String) : List Char :=
  trimChars (jsUpper (o.getD ""))

/-- Normalised raw status used by deriveStatus: null coalesced to the empty
string, trimmed, then lowercased, in source order. -/
def normRawStatus (o : Option String) : List Char :=
  jsLowerChars (trimChars (o.getD "").toList)

/-- deriveStatus of the list page: the event-code rule chain (on the
normalised event code), then the raw-status rule chain (on the normalised raw
status), then the In Transit default, translated if for if.  The two local
constants of the source are the two normalisation helpers above, applied at
each use site. -/
def deriveStatus (s : Shipment) : String :=
  if jsIncludes (normEventCode s.latest_event_code) ("DELIVERED")
      || normEventCode s.latest_event_code == ("DEL").toList then ("Delivered")
  else if jsIncludes (normEventCode s.latest_event_code) ("CUSTOMS_RELEASED")
      || normEventCode s.latest_event_code == ("CUS").toList
      || jsIncludes (normEventCode s.latest_event_code) ("CLEARED") then ("Customs Released")
  else if jsIncludes (normEventCode s.latest_event_code) ("DISCHARGED")
      || normEventCode s.latest_event_code == ("DIS").toList then ("Discharged")
  else if jsIncludes (normEventCode s.latest_event_code) ("ATD")
      || jsIncludes (normEventCode s.latest_event_code) ("DEPARTED") then ("In Transit")
  else if jsIncludes (normEventCode s.latest_event_code) ("BOOKED")
      || jsIncludes (normEventCode s.latest_event_code) ("READY")
      || jsIncludes (normEventCode s.latest_event_code) ("DOCS_RECEIVED")
      || jsIncludes (normEventCode s.latest_event_code) ("CARGO_RECEIVED") then
    ("Pre-Departure")
  else if jsIncludes (normRawStatus s.current_status) ("deliver") then ("Delivered")
  else if jsIncludes (normRawStatus s.current_status) ("custom")
      && (jsIncludes (normRawStatus s.current_status) ("release")
        || jsIncludes (normRawStatus s.current_status) ("cleared")) then
    ("Customs Released")
  else if jsIncludes (normRawStatus s.current_status) ("discharg") then ("Discharged")
  else if jsIncludes (normRawStatus s.current_status) ("transit") then ("In Transit")
  else if jsIncludes (normRawStatus s.current_status) ("pre")
      || jsIncludes (normRawStatus s.current_status) ("booked")
      || jsIncludes (normRawStatus s.current_status) ("ready") then
    ("Pre-Departure")
  else ("In Transit")

/-- The event-code rule chain of deriveStatus on its own: the label it yields,
or none when no event-code rule matches.  Used to state that event-code
evidence dominates. -/
def statusFromEventCode (eventCode : List Char) : Option String :=
  if jsIncludes eventCode ("DELIVERED") || eventCode == ("DEL").toList then some ("Delivered")
  else if jsIncludes eventCode ("CUSTOMS_RELEASED") || eventCode == ("CUS").toList
      || jsIncludes eventCode ("CLEARED") then some ("Customs Released")
  else if jsIncludes eventCode ("DISCHARGED") || eventCode == ("DIS").toList then some ("Discharged")
  else if jsIncludes eventCode ("ATD") || jsIncludes eventCode ("DEPARTED") then some ("In Transit")
  else if jsIncludes eventCode ("BOOKED") || jsIncludes eventCode ("READY")
      || jsIncludes eventCode ("DOCS_RECEIVED") || jsIncludes eventCode ("CARGO_RECEIVED") then
    some ("Pre-Departure")
  else none

/-- The raw-status rule chain of deriveStatus on its own: the label it yields,
or none when no raw-status rule matches. -/
def statusFromRaw (raw : List Char) : Option String :=
  if jsIncludes raw ("deliver") then some ("Delivered")
  else if jsIncludes raw ("custom") && (jsIncludes raw ("release") || jsIncludes raw ("cleared")) then
    some ("Customs Released")
  else if jsIncludes raw ("discharg") then some ("Discharged")
  else if jsIncludes raw ("transit") then some ("In Transit")
  else if jsIncludes raw ("pre") || jsIncludes raw ("booked") || jsIncludes raw ("ready") then
    some ("Pre-Departure")
  else none

/-- The five canonical lifecycle labels. -/
def canonicalLabels : List String :=
  [("Delivered"), ("Customs Released"), ("Discharged"), ("In Transit"), ("Pre-Departure")]

set_option maxHeartbeats 1600000 in
/-- deriveStatus factors through the two rule chains in priority order. -/
theorem deriveStatus_eq_chain (s : Shipment) :
    deriveStatus s =
      match statusFromEventCode (normEventCode s.latest_event_code) with
      | some l => l
      | none =>
        match statusFromRaw (normRawStatus s.current_status) with
        | some l => l
        | none => ("In Transit") := by
  rw [deriveStatus, statusFromEventCode, statusFromRaw]
  generalize normEventCode s.latest_event_code = c
  generalize normRawStatus s.current_status = r
  split_ifs <;> rfl

/-- Every label the event-code rule chain yields is canonical. -/
theorem statusFromEventCode_mem (c : List Char) (l : String)
    (h : statusFromEventCode c = some l) : l ∈ canonicalLabels := by
  rw [statusFromEventCode] at h
  split_ifs at h <;> simp_all [canonicalLabels]

/-- Every label the raw-status rule chain yields is canonical. -/
theorem statusFromRaw_mem (r : List Char) (l : String)
    (h : statusFromRaw r = some l) : l ∈ canonicalLabels := by
  rw [statusFromRaw] at h
  split_ifs at h <;> simp_all [canonicalLabels]

/-- Claim C4: deriveStatus is total over the five canonical labels, the
event-code rule chain is consulted first and the raw-status rules only when no
event-code rule matched (event-code evidence dominates), an In Transit raw
status together with a DELIVERED latest event code yields Delivered, and when
nothing matches the result is In Transit (the default branch of the
factorisation). -/
theorem c4_deriveStatus_total_event_code_dominates :
    (∀ s : Shipment, deriveStatus s ∈ canonicalLabels) ∧
    (∀ s : Shipment,
      deriveStatus s =
        match statusFromEventCode (normEventCode s.latest_event_code) with
        | some l => l
        | none =>
          match statusFromRaw (normRawStatus s.current_status) with
          | some l => l
          | none => ("In Transit")) ∧
    deriveStatus
      { shipment_id := ("X"), hawb := none, mawb := none, po_number := none,
        customer_reference := none, origin := none, destination := none,
        current_status := some ("In Transit"), eta_updated := none,
        last_event_time := none, latest_event_code := some ("DELIVERED") } = ("Delivered") := by
  refine ⟨?_, deriveStatus_eq_chain, by decide⟩
  intro s
  rw [deriveStatus_eq_chain s]
  cases hc : statusFromEventCode (normEventCode s.latest_event_code) with
  | some l => exact statusFromEventCode_mem _ _ hc
  | none =>
    cases hr : statusFromRaw (normRawStatus s.current_status) with
    | some l => exact statusFromRaw_mem _ _ hr
    | none => simp [canonicalLabels]

/-- The client event row of the detail page. -/
structure EventRow where
  event_time : Option String
  event_code : Option String
  notes : Option String
  location : Option String
  source_column : Option String
deriving DecidableEq, Repr

/-- A milestone of the progress bar: key, label and the event codes that
realise it. -/
structure Milestone where
  key : String
  label : String
  codes : List String
deriving DecidableEq, Repr

/-- The eight ordered milestones of the detail page, in source order. -/
def MILESTONES : List Milestone :=
  [ { key := ("booked"), label := ("Booked"), codes := [("BOOKED")] },
    { key := ("ready"), label := ("Ready"), codes := [("READY")] },
    { key := ("docs"), label := ("Docs Received"), codes := [("DOCS_RECEIVED")] },
    { key := ("cargo"), label := ("Cargo Received"), codes := [("CARGO_RECEIVED")] },
    { key := ("departed"), label := ("Departed"), codes := [("ATD")] },
    { key := ("discharged"), label := ("Discharged"), codes := [("DISCHARGED")] },
    { key := ("customs"), label := ("Customs Released"), codes := [("CUSTOMS_RELEASED")] },
    { key := ("delivered"), label := ("Delivered"), codes := [("DELIVERED")] } ]

/-- The set of normalised event codes present in a list of events: null
coalesced to the empty string, uppercased, trimmed, empties dropped. -/
def eventCodesOf (events : List EventRow) : List (List Char) :=
  (events.map (fun e => trimChars (jsUpper (e.event_code.getD "")))).filter
    (fun cs => !cs.isEmpty)

/-- Whether some code of milestone i appears among the normalised codes (the
membership test of the source set of codes). -/
def milestoneHit (i : Nat) (codes : List (List Char)) : Bool :=
  match MILESTONES.get? i with
  | some m => m.codes.any (fun c => decide (c.toList ∈ codes))
  | none => false

/-- The descending scan of inferMilestoneIndex: try indices n-1, n-2, ..., 0
and return the first hit, or 0 when none hits. -/
def scanFromTop (codes : List (List Char)) : Nat → Nat
  | 0 => 0
  | n + 1 => if milestoneHit n codes then n else scanFromTop codes n

/-- inferMilestoneIndex of the detail page: 0 on an empty event list,
otherwise the descending scan over all eight milestones. -/
def inferMilestoneIndex (events : List EventRow) : Nat :=
  if events.isEmpty then 0
  else scanFromTop (eventCodesOf events) MILESTONES.length

/-- The descending scan returns the largest hit index below its bound, or 0
when no index below the bound hits. -/
theorem scanFromTop_spec (codes : List (List Char)) (n : Nat) :
    (milestoneHit (scanFromTop codes n) codes = true ∧ scanFromTop codes n < n ∧
      ∀ j, j < n → milestoneHit j codes = true → j ≤ scanFromTop codes n) ∨
    (scanFromTop codes n = 0 ∧ ∀ j, j < n → milestoneHit j codes = false) := by
  induction n with
  | zero => exact Or.inr ⟨rfl, fun j hj => absurd hj (Nat.not_lt_zero j)⟩
  | succ n ih =>
    by_cases h : milestoneHit n codes = true
    · left
      refine ⟨by simp [scanFromTop, h], by simp [scanFromTop, h], ?_⟩
      intro j hj _
      simp only [scanFromTop, h, if_true]
      omega
    · have hs : scanFromTop codes (n + 1) = scanFromTop codes n := by
        simp [scanFromTop, h]
      rcases ih with ⟨h1, h2, h3⟩ | ⟨h0, hall⟩
      · left
        refine ⟨by simp only [hs]; exact h1, by omega, ?_⟩
        intro j hj hhit
        rcases Nat.lt_succ_iff_lt_or_eq.mp hj with hlt | rfl
        · exact (h3 j hlt hhit).trans_eq hs.symm
        · exact absurd hhit h
      · right
        refine ⟨hs.trans h0, ?_⟩
        intro j hj
        rcases Nat.lt_succ_iff_lt_or_eq.mp hj with hlt | rfl
        · exact hall j hlt
        · exact Bool.not_eq_true _ ▸ (by simpa using h)

/-- No milestone code appears in the empty code set. -/
theorem milestoneHit_nil (j : Nat) : milestoneHit j [] = false := by
  rw [milestoneHit]
  cases MILESTONES.get? j with
  | none => rfl
  | some m => simp

/-- any over a pointwise disjunction of boolean predicates splits. -/
theorem any_or_split (l : List α) (p q : α → Bool) :
    l.any (fun a => p a || q a) = (l.any p || l.any q) := by
  induction l with
  | nil => rfl
  | cons a t ih =>
    simp only [List.any_cons, ih]
    cases p a <;> cases q a <;> simp

/-- A milestone hit against an appended code set is a hit against either
part. -/
theorem milestoneHit_append (j : Nat) (cs ds : List (List Char)) :
    milestoneHit j (cs ++ ds) = (milestoneHit j cs || milestoneHit j ds) := by
  rw [milestoneHit, milestoneHit, milestoneHit]
  cases MILESTONES.get? j with
  | none => rfl
  | some m =>
    dsimp only
    rw [← any_or_split]
    congr 1
    funext c
    by_cases h1 : c.toList ∈ cs <;> by_cases h2 : c.toList ∈ ds <;>
      simp [List.mem_append, h1, h2]

/-- The code set of an appended event list splits. -/
theorem eventCodesOf_append (es fs : List EventRow) :
    eventCodesOf (es ++ fs) = eventCodesOf es ++ eventCodesOf fs := by
  simp [eventCodesOf, List.filter_append]

/-- The inferred milestone index is always below eight. -/
theorem inferMilestoneIndex_lt (events : List EventRow) : inferMilestoneIndex events < 8 := by
  rw [inferMilestoneIndex]
  split_ifs with h
  · omega
  · rcases scanFromTop_spec (eventCodesOf events) MILESTONES.length with ⟨_, h2, _⟩ | ⟨h0, _⟩
    · exact h2
    · rw [h0]; omega

/-- Furthest progress wins: any hit milestone index is bounded by the result,
and the result itself is hit. -/
theorem inferMilestoneIndex_max (events : List EventRow) (j : Nat) (hj : j < 8)
    (hhit : milestoneHit j (eventCodesOf events) = true) :
    j ≤ inferMilestoneIndex events ∧
      milestoneHit (inferMilestoneIndex events) (eventCodesOf events) = true := by
  rw [inferMilestoneIndex]
  split_ifs with h
  · rw [List.isEmpty_iff.mp h] at hhit
    rw [show eventCodesOf [] = [] from rfl, milestoneHit_nil] at hhit
    exact absurd hhit (by simp)
  · rcases scanFromTop_spec (eventCodesOf events) MILESTONES.length with ⟨h1, _, h3⟩ | ⟨_, hall⟩
    · exact ⟨h3 j hj hhit, h1⟩
    · exact absurd hhit (by simp [hall j hj])

/-- When no milestone is hit the result is zero. -/
theorem inferMilestoneIndex_zero (events : List EventRow)
    (h : ∀ j, j < 8 → milestoneHit j (eventCodesOf events) = false) :
    inferMilestoneIndex events = 0 := by
  rw [inferMilestoneIndex]
  split_ifs with he
  · rfl
  · rcases scanFromTop_spec (eventCodesOf events) MILESTONES.length with ⟨h1, h2, _⟩ | ⟨h0, _⟩
    · exact absurd h1 (by simp [h _ h2])
    · exact h0

/-- Appending an event whose milestone hits all lie strictly below the current
result leaves the result unchanged. -/
theorem inferMilestoneIndex_append (events : List EventRow) (e : EventRow)
    (hyp : ∀ j, j < 8 → milestoneHit j (eventCodesOf [e]) = true →
      j < inferMilestoneIndex events) :
    inferMilestoneIndex (events ++ [e]) = inferMilestoneIndex events := by
  cases events with
  | nil =>
    have h0 : inferMilestoneIndex ([] : List EventRow) = 0 := rfl
    rw [h0] at hyp ⊢
    simp only [List.nil_append]
    exact inferMilestoneIndex_zero [e] (fun j hj => by
      by_contra hco
      exact absurd (hyp j hj (Bool.not_eq_false _ ▸ hco)) (Nat.not_lt_zero j))
  | cons x t =>
    have hr : inferMilestoneIndex (x :: t) =
        scanFromTop (eventCodesOf (x :: t)) MILESTONES.length := rfl
    have hl : inferMilestoneIndex ((x :: t) ++ [e]) =
        scanFromTop (eventCodesOf (x :: t) ++ eventCodesOf [e]) MILESTONES.length := by
      rw [← eventCodesOf_append]
      rfl
    rw [hl, hr]
    rw [hr] at hyp
    have hlen : MILESTONES.length = 8 := rfl
    rcases scanFromTop_spec (eventCodesOf (x :: t)) MILESTONES.length with
      ⟨h1, h2, h3⟩ | ⟨h0, hall⟩
    · rcases scanFromTop_spec (eventCodesOf (x :: t) ++ eventCodesOf [e]) MILESTONES.length with
        ⟨g1, g2, g3⟩ | ⟨g0, gall⟩
      · have hle : scanFromTop (eventCodesOf (x :: t)) MILESTONES.length ≤
            scanFromTop (eventCodesOf (x :: t) ++ eventCodesOf [e]) MILESTONES.length := by
          refine g3 _ h2 ?_
          rw [milestoneHit_append, h1]
          rfl
        rw [milestoneHit_append] at g1
        rcases Bool.or_eq_true_iff.mp g1 with gc | gd
        · exact Nat.le_antisymm (h3 _ g2 gc) hle
        · have hj8 : scanFromTop (eventCodesOf (x :: t) ++ eventCodesOf [e])
              MILESTONES.length < 8 := by omega
          have hlt := hyp _ hj8 gd
          omega
      · have hcontra := gall _ h2
        rw [milestoneHit_append, h1] at hcontra
        simp at hcontra
    · rcases scanFromTop_spec (eventCodesOf (x :: t) ++ eventCodesOf [e]) MILESTONES.length with
        ⟨g1, g2, g3⟩ | ⟨g0, gall⟩
      · rw [milestoneHit_append] at g1
        rcases Bool.or_eq_true_iff.mp g1 with gc | gd
        · exact absurd gc (by simp [hall _ g2])
        · have hj8 : scanFromTop (eventCodesOf (x :: t) ++ eventCodesOf [e])
              MILESTONES.length < 8 := by omega
          have hlt := hyp _ hj8 gd
          omega
      · rw [g0, h0]

/-- Claim C5: inferMilestoneIndex implements furthest progress wins — the
result is below eight, it is the largest milestone index whose codes intersect
the normalised code set (and itself a hit whenever any index is hit), it is
zero when nothing is hit, appending an event all of whose milestone hits lie
strictly below the current result leaves the result unchanged, and the code
set consisting of CARGO_RECEIVED and ATD yields index 4, not 3. -/
theorem c5_inferMilestoneIndex_furthest_progress :
    (∀ events : List EventRow, inferMilestoneIndex events < 8) ∧
    (∀ (events : List EventRow) (j : Nat), j < 8 →
      milestoneHit j (eventCodesOf events) = true →
      j ≤ inferMilestoneIndex events ∧
        milestoneHit (inferMilestoneIndex events) (eventCodesOf events) = true) ∧
    (∀ events : List EventRow,
      (∀ j, j < 8 → milestoneHit j (eventCodesOf events) = false) →
      inferMilestoneIndex events = 0) ∧
    (∀ (events : List EventRow) (e : EventRow),
      (∀ j, j < 8 → milestoneHit j (eventCodesOf [e]) = true →
        j < inferMilestoneIndex events) →
      inferMilestoneIndex (events ++ [e]) = inferMilestoneIndex events) ∧
    inferMilestoneIndex
      [⟨none, some ("CARGO_RECEIVED"), none, none, none⟩,
       ⟨none, some ("ATD"), none, none, none⟩] = 4 ∧
    (MILESTONES.get? 4).map Milestone.label = some ("Departed") :=
  ⟨inferMilestoneIndex_lt, inferMilestoneIndex_max, inferMilestoneIndex_zero,
    inferMilestoneIndex_append, by decide, by decide⟩

/-- Witness for claim C5 at concrete inputs: appending a BOOKED event (a
strictly earlier milestone) to a CARGO_RECEIVED history leaves the index
unchanged, and milestone 3 being hit bounds the index from below. -/
theorem c5_witness :
    inferMilestoneIndex
        ([⟨none, some ("CARGO_RECEIVED"), none, none, none⟩] ++
          [⟨none, some ("BOOKED"), none, none, none⟩]) =
      inferMilestoneIndex [⟨none, some ("CARGO_RECEIVED"), none, none, none⟩] ∧
    3 ≤ inferMilestoneIndex [⟨none, some ("CARGO_RECEIVED"), none, none, none⟩] :=
  ⟨c5_inferMilestoneIndex_furthest_progress.2.2.2.1
      [⟨none, some ("CARGO_RECEIVED"), none, none, none⟩]
      ⟨none, some ("BOOKED"), none, none, none⟩ (by decide),
    (c5_inferMilestoneIndex_furthest_progress.2.1
      [⟨none, some ("CARGO_RECEIVED"), none, none, none⟩] 3 (by decide) (by decide)).1⟩

/-- A membership row of the allowed_users table. -/
structure MemRow where
  email : String
  customer_id : Option String
deriving DecidableEq, Repr

/-- A shipment row of the shipments table, restricted to the columns the
handlers inspect.  The identifier is unique in the table (the data model);
the last-event timestamp is modelled as a number. -/
structure ShipRow where
  shipment_id : String
  customer_id : Option String
  last_event_time : Nat
deriving DecidableEq, Repr

/-- An event row of the events table, restricted to the columns the handlers
inspect. -/
structure DbEventRow where
  shipment_id : String
  event_time : Nat
  event_code : Option String
deriving DecidableEq, Repr

/-- The external datastore as seen by one request: the two table reads either
yield rows or fail, and each query against the events table for a given
shipment identifier is an independent read that fails according to
eventsFail. -/
structure Db where
  allowedUsers : Except String (List MemRow)
  shipments : Except String (List ShipRow)
  events : List DbEventRow
  eventsFail : String → Bool

/-- SQL ILIKE pattern matching, case-insensitively: a percent sign matches
any sequence of characters, an underscore matches exactly one character, and
any other pattern character matches itself up to letter case.  Escape
sequences are not modelled; theorems that claim pure equality semantics
restrict patterns accordingly. -/
def ilikeChars : List Char → List Char → Bool
  | [], cs => cs.isEmpty
  | p :: ps, cs =>
    if p = '%' then (cs.tails).any (fun suffix => ilikeChars ps suffix)
    else
      match cs with
      | [] => false
      | c :: cs2 =>
        if p = '_' then ilikeChars ps cs2
        else decide (p.toLower = c.toLower) && ilikeChars ps cs2

/-- The or-condition of the list endpoint for one membership scope: the
owning scope column ILIKE the scope; a null owning scope matches nothing. -/
def scopeMatchIlike (owner : Option String) (scope : String) : Bool :=
  match owner with
  | some v => ilikeChars scope.toList v.toList
  | none => false

/-- The membership rows of a caller: allowed_users filtered by exact email
match. -/
def membershipsFor (rows : List MemRow) (email : String) : List MemRow :=
  rows.filter (fun m => m.email == email)

/-- The customerIds of both handlers: the customer ids of the memberships
with null and empty values dropped (the filter by Boolean of the source). -/
def customerIdsOf (ms : List MemRow) : List String :=
  ((ms.map (fun m => m.customer_id)).filterMap (fun x => x)).filter (fun s => !(s == ""))

/-- Descending order on shipment rows by last-event timestamp. -/
def shipTimeGE (a b : ShipRow) : Prop := b.last_event_time ≤ a.last_event_time

instance : DecidableRel shipTimeGE := fun a b => Nat.decLe b.last_event_time a.last_event_time

instance : IsTotal ShipRow shipTimeGE := ⟨fun a b => le_total b.last_event_time a.last_event_time⟩

instance : IsTrans ShipRow shipTimeGE := ⟨fun _ _ _ h1 h2 => le_trans h2 h1⟩

/-- Descending order on event rows by event timestamp. -/
def evTimeGE (a b : DbEventRow) : Prop := b.event_time ≤ a.event_time

instance : DecidableRel evTimeGE := fun a b => Nat.decLe b.event_time a.event_time

instance : IsTotal DbEventRow evTimeGE := ⟨fun a b => le_total b.event_time a.event_time⟩

instance : IsTrans DbEventRow evTimeGE := ⟨fun _ _ _ h1 h2 => le_trans h2 h1⟩

/-- The rows matching the or-query of the list endpoint: shipments whose
owning scope matches some customer id case-insensitively (ILIKE). -/
def matchingShipments (ships : List ShipRow) (cids : List String) : List ShipRow :=
  ships.filter (fun s => cids.any (fun cid => scopeMatchIlike s.customer_id cid))

/-- The matching rows ordered by last-event timestamp descending (the order
clause executed by the datastore). -/
def orderedShipments (ships : List ShipRow) (cids : List String) : List ShipRow :=
  List.insertionSort shipTimeGE (matchingShipments ships cids)

/-- The shipment query of the list endpoint: matching rows ordered by
last-event timestamp descending and truncated to 300 rows. -/
def queriedShipments (ships : List ShipRow) (cids : List String) : List ShipRow :=
  (orderedShipments ships cids).take 300

/-- The events of one shipment (the eq filter on the events table). -/
def eventsFor (events : List DbEventRow) (sid : String) : List DbEventRow :=
  events.filter (fun e => e.shipment_id == sid)

/-- The value computed by the latest-event query of the list endpoint: the
single most recent event of the shipment (order by event time descending,
limit one), with the attached code null when the shipment has no events or
the code is null or empty (the or-null of the source). -/
def latestEventCode (events : List DbEventRow) (sid : String) : Option String :=
  match (List.insertionSort evTimeGE (eventsFor events sid)).head? with
  | some e =>
    match e.event_code with
    | some c => if c == "" then none else some c
    | none => none
  | none => none

/-- One latest-event lookup of the list endpoint: an independent read that
may fail on its own. -/
def latestEventLookup (db : Db) (sid : String) : Except String (Option String) :=
  if db.eventsFail sid then Except.error ("event query failed")
  else Except.ok (latestEventCode db.events sid)

/-- A row of the list response: the selected shipment columns with the
attached latest event code. -/
structure OutRow where
  ship : ShipRow
  latest_event_code : Option String
deriving DecidableEq, Repr

/-- The attach step of the list endpoint.  The source destructures only the
data of the lookup, so a failed lookup yields a null latest event code
rather than an error. -/
def attachLatest (db : Db) (s : ShipRow) : OutRow :=
  { ship := s,
    latest_event_code :=
      match latestEventLookup db s.shipment_id with
      | Except.ok v => v
      | Except.error _ => none }

/-- The response of the list route: 200 with data and email, or a status and
an error message. -/
inductive ListResult where
  | success (data : List OutRow) (email : String)
  | failure (status : Nat) (error : String)
deriving DecidableEq, Repr

/-- Whether a list response is a 200. -/
def listIsSuccess : ListResult → Bool
  | ListResult.success _ _ => true
  | ListResult.failure _ _ => false

/-- GET of the list route, from the point where the bearer token has been
verified to the caller's email.  The membership lookup and the shipment
query fail the request with 500; the per-shipment latest-event lookups are
destructured for data only (see attachLatest). -/
def apiShipmentsGET (db : Db) (email : String) : ListResult :=
  match db.allowedUsers with
  | Except.error e => ListResult.failure 500 e
  | Except.ok rows =>
    if (membershipsFor rows email).isEmpty then ListResult.success [] email
    else if (customerIdsOf (membershipsFor rows email)).isEmpty then ListResult.success [] email
    else
      match db.shipments with
      | Except.error e => ListResult.failure 500 e
      | Except.ok ships =>
        ListResult.success
          ((queriedShipments ships (customerIdsOf (membershipsFor rows email))).map
            (attachLatest db))
          email

/-- The response of the detail route: 200 with the shipment and its events,
or a status and an error message. -/
inductive DetailResult where
  | success (shipment : ShipRow) (events : List DbEventRow)
  | failure (status : Nat) (error : String)
deriving DecidableEq, Repr

/-- The HTTP status of a detail response. -/
def detailStatus : DetailResult → Nat
  | DetailResult.success _ _ => 200
  | DetailResult.failure st _ => st

/-- The events query of the detail route: all events of the shipment ordered
by event time descending; an independent read that may fail. -/
def eventsListLookup (db : Db) (sid : String) : Except String (List DbEventRow) :=
  if db.eventsFail sid then Except.error ("events query failed")
  else Except.ok (List.insertionSort evTimeGE (eventsFor db.events sid))

/-- The ownership check of the detail route: some customer id equals the
shipment owning scope after lowercasing; a null owning scope matches
nothing (the optional chaining of the source). -/
def detailHasAccess (customerIds : List String) (owner : Option String) : Bool :=
  customerIds.any (fun id =>
    match owner with
    | some c => lowerEqB id c
    | none => false)

/-- GET of the detail route, from the point where the bearer token has been
verified to the caller's email.  The membership and shipment reads fail with
500; zero membership rows is 403 before the shipment is fetched; an unknown
identifier is 404; an owning scope outside the customer ids is 403; the
shipment identifier is unique in its table, so the single-row fetch is a
find. -/
def apiShipmentDetailGET (db : Db) (email : String) (shipmentId : String) : DetailResult :=
  match db.allowedUsers with
  | Except.error e => DetailResult.failure 500 e
  | Except.ok rows =>
    if (membershipsFor rows email).isEmpty then DetailResult.failure 403 ("No customer access")
    else
      match db.shipments with
      | Except.error e => DetailResult.failure 500 e
      | Except.ok ships =>
        match ships.find? (fun s => s.shipment_id == shipmentId) with
        | none => DetailResult.failure 404 ("Shipment not found")
        | some shp =>
          if detailHasAccess (customerIdsOf (membershipsFor rows email)) shp.customer_id then
            match eventsListLookup db shipmentId with
            | Except.error e => DetailResult.failure 500 e
            | Except.ok evs => DetailResult.success shp evs
          else DetailResult.failure 403 ("You do not have access to this shipment")

/-- Wildcard-free ILIKE patterns: no percent, underscore or backslash. -/
def noWildB (s : String) : Bool :=
  s.toList.all (fun c => !(c == '%') && !(c == '_') && !(c == '\\'))

/-- On a wildcard-free pattern, ILIKE is exactly equality of the lowercased
character lists. -/
theorem ilikeChars_eq_lower_of_noWild (pat : List Char)
    (hw : pat.all (fun c => !(c == '%') && !(c == '_') && !(c == '\\')) = true) :
    ∀ cs : List Char, ilikeChars pat cs = (pat.map Char.toLower == cs.map Char.toLower) := by
  induction pat with
  | nil => intro cs; cases cs <;> rfl
  | cons p ps ih =>
    rw [List.all_cons, Bool.and_eq_true] at hw
    obtain ⟨hp, hps⟩ := hw
    have hpc : p ≠ '%' := by
      intro h
      subst h
      simp at hp
    have hpu : p ≠ '_' := by
      intro h
      subst h
      simp at hp
    intro cs
    cases cs with
    | nil =>
      rw [ilikeChars]
      simp [hpc]
    | cons c cs2 =>
      rw [ilikeChars]
      rw [if_neg hpc]
      rw [if_neg hpu]
      rw [ih hps cs2]
      simp only [List.map_cons, List.cons_beq_cons]
      by_cases h : p.toLower = c.toLower
      · simp [h]
      · simp [h]

/-- A null owning scope passes no ownership check at the detail endpoint. -/
theorem detailHasAccess_none (cids : List String) : detailHasAccess cids none = false := by
  simp [detailHasAccess]

/-- Every retained customer id is a non-empty string. -/
theorem mem_customerIdsOf_ne (ms : List MemRow) (cid : String)
    (h : cid ∈ customerIdsOf ms) : cid ≠ "" := by
  rw [customerIdsOf] at h
  have := (List.mem_filter.mp h).2
  intro hc
  subst hc
  simp at this

/-- Counterexample to claim C1 as stated: a caller with an empty set of
membership rows asking for an identifier that matches no shipment receives
403, not 404 — the detail route rejects on empty memberships before the
shipment is fetched. -/
theorem c1_counterexample :
    List.find? (fun s => s.shipment_id == ("S1")) ([] : List ShipRow) = none ∧
    apiShipmentDetailGET
      { allowedUsers := Except.ok [], shipments := Except.ok [], events := [],
        eventsFail := fun _ => false } ("u@x.com") ("S1") =
      DetailResult.failure 403 ("No customer access") :=
  ⟨rfl, by decide⟩

/-- Claim C1 (amended): for every caller with at least one membership row, a
detail request whose identifier matches no shipment returns 404 regardless of
which scopes those memberships carry; a caller with zero membership rows is
rejected with 403 before the shipment is fetched. -/
theorem c1_detail_nonexistent_404 :
    ∀ (db : Db) (email sid : String) (rows : List MemRow) (ships : List ShipRow),
      db.allowedUsers = Except.ok rows →
      membershipsFor rows email ≠ [] →
      db.shipments = Except.ok ships →
      List.find? (fun s => s.shipment_id == sid) ships = none →
      apiShipmentDetailGET db email sid = DetailResult.failure 404 ("Shipment not found") := by
  intro db email sid rows ships h1 h2 h3 h4
  have hm : (membershipsFor rows email).isEmpty = false := by
    cases hle : (membershipsFor rows email).isEmpty
    · rfl
    · exact absurd (List.isEmpty_iff.mp hle) h2
  simp [apiShipmentDetailGET, h1, hm, h3, h4]

/-- Witness for claim C1 at a concrete input: one membership row, an empty
shipment table, a 404 response. -/
theorem c1_witness :
    apiShipmentDetailGET
      { allowedUsers := Except.ok [⟨("u@x.com"), some ("ACME")⟩],
        shipments := Except.ok [], events := [], eventsFail := fun _ => false }
      ("u@x.com") ("S2") = DetailResult.failure 404 ("Shipment not found") :=
  c1_detail_nonexistent_404 _ _ _ _ _ rfl (by decide) rfl rfl

/-- Claim C2: a caller with zero membership rows receives 200 with an empty
data array from the list endpoint for every datastore state — in particular
even when the shipment table read would fail, showing that no shipment query
is consulted — and the detail endpoint answers 403 (not 404) for every
shipment identifier that resolves to an existing row whose owning scope
passes no ownership check of the caller. -/
theorem c2_empty_scopes_and_forbidden :
    (∀ (db : Db) (email : String) (rows : List MemRow),
      db.allowedUsers = Except.ok rows → membershipsFor rows email = [] →
      apiShipmentsGET db email = ListResult.success [] email) ∧
    (∀ (db : Db) (email sid : String) (rows : List MemRow) (ships : List ShipRow)
      (shp : ShipRow),
      db.allowedUsers = Except.ok rows → db.shipments = Except.ok ships →
      List.find? (fun s => s.shipment_id == sid) ships = some shp →
      detailHasAccess (customerIdsOf (membershipsFor rows email)) shp.customer_id = false →
      detailStatus (apiShipmentDetailGET db email sid) = 403) := by
  constructor
  · intro db email rows h1 h2
    simp [apiShipmentsGET, h1, h2]
  · intro db email sid rows ships shp h1 h2 h3 h4
    by_cases hm : (membershipsFor rows email).isEmpty = true
    · simp [apiShipmentDetailGET, h1, hm, detailStatus]
    · simp [apiShipmentDetailGET, h1, hm, h2, h3, h4, detailStatus]

/-- Witness for claim C2 at concrete inputs: a caller with no membership rows
gets an empty 200 even though the shipment table read would fail, and an
existing shipment outside the caller's scopes yields 403. -/
theorem c2_witness :
    apiShipmentsGET
      { allowedUsers := Except.ok [⟨("v@x.com"), some ("acme")⟩],
        shipments := Except.error ("datastore down"), events := [],
        eventsFail := fun _ => false } ("u@x.com") = ListResult.success [] ("u@x.com") ∧
    detailStatus
      (apiShipmentDetailGET
        { allowedUsers := Except.ok [⟨("u@x.com"), some ("other")⟩],
          shipments := Except.ok [⟨("S1"), some ("acme"), 5⟩], events := [],
          eventsFail := fun _ => false } ("u@x.com") ("S1")) = 403 :=
  ⟨c2_empty_scopes_and_forbidden.1 _ _ _ rfl (by decide),
    c2_empty_scopes_and_forbidden.2 _ _ _ _ _ ⟨("S1"), some ("acme"), 5⟩ rfl rfl
      (by decide) (by decide)⟩

/-- Counterexample to claim C3 as stated: the list endpoint passes membership
scopes to the datastore as ILIKE patterns, so the scope AC_E grants access to
a shipment owned by ACME although the two are not equal up to letter case —
access is not granted exactly on case-insensitive equality. -/
theorem c3_counterexample :
    apiShipmentsGET
      { allowedUsers := Except.ok [⟨("u@x.com"), some ("AC_E")⟩],
        shipments := Except.ok [⟨("S1"), some ("ACME"), 5⟩],
        events := [], eventsFail := fun _ => false } ("u@x.com") =
      ListResult.success [⟨⟨("S1"), some ("ACME"), 5⟩, none⟩] ("u@x.com") ∧
    lowerEqB ("AC_E") ("ACME") = false :=
  ⟨by decide, by decide⟩

/-- Claim C3 (amended): for membership scopes free of the ILIKE wildcard and
escape characters (percent, underscore, backslash) the list endpoint's scope
filter grants access exactly on equality up to letter case; the detail
endpoint's ownership check is equality up to letter case for every scope;
and the spec's example holds at both checks: scope ACME matches owning scope
acme. -/
theorem c3_scope_match_case_insensitive :
    (∀ scope owner : String, noWildB scope = true →
      scopeMatchIlike (some owner) scope = lowerEqB scope owner) ∧
    (∀ (cids : List String) (owner : String),
      detailHasAccess cids (some owner) = cids.any (fun cid => lowerEqB cid owner)) ∧
    scopeMatchIlike (some ("acme")) ("ACME") = true ∧
    detailHasAccess [("ACME")] (some ("acme")) = true := by
  refine ⟨?_, ?_, by decide, by decide⟩
  · intro scope owner hw
    show ilikeChars scope.toList owner.toList = lowerEqB scope owner
    rw [ilikeChars_eq_lower_of_noWild scope.toList hw owner.toList]
    rfl
  · intro cids owner
    rfl

/-- Witness for claim C3 at a concrete input: for the wildcard-free scope
ACME the list filter agrees with lowercase equality against owner acme. -/
theorem c3_witness :
    scopeMatchIlike (some ("acme")) ("ACME") = lowerEqB ("ACME") ("acme") :=
  c3_scope_match_case_insensitive.1 ("ACME") ("acme") (by decide)

/-- Claim C10: a shipment whose owning scope is null is inaccessible — every
detail request for it answers 403 whatever the caller's memberships are —
and every 200 detail response implies the shipment's owning scope is some
value that is equal, after lowercasing, to a non-empty retained membership
scope of the caller. -/
theorem c10_null_scope_forbidden :
    (∀ (db : Db) (email sid : String) (rows : List MemRow) (ships : List ShipRow)
      (shp : ShipRow),
      db.allowedUsers = Except.ok rows → db.shipments = Except.ok ships →
      List.find? (fun s => s.shipment_id == sid) ships = some shp →
      shp.customer_id = none →
      detailStatus (apiShipmentDetailGET db email sid) = 403) ∧
    (∀ (db : Db) (email sid : String) (rows : List MemRow) (shp : ShipRow)
      (evs : List DbEventRow),
      db.allowedUsers = Except.ok rows →
      apiShipmentDetailGET db email sid = DetailResult.success shp evs →
      ∃ c, shp.customer_id = some c ∧
        ∃ cid, cid ∈ customerIdsOf (membershipsFor rows email) ∧ cid ≠ ("") ∧
          lowerEqB cid c = true) := by
  constructor
  · intro db email sid rows ships shp h1 h2 h3 h4
    by_cases hm : (membershipsFor rows email).isEmpty = true
    · simp [apiShipmentDetailGET, h1, hm, detailStatus]
    · simp [apiShipmentDetailGET, h1, hm, h2, h3, h4, detailHasAccess_none, detailStatus]
  · intro db email sid rows shp evs h1 hsucc
    simp only [apiShipmentDetailGET, h1] at hsucc
    by_cases hm : (membershipsFor rows email).isEmpty = true
    · rw [if_pos hm] at hsucc
      exact absurd hsucc (by simp)
    · rw [if_neg hm] at hsucc
      cases hship : db.shipments with
      | error e =>
        simp only [hship] at hsucc
        exact absurd hsucc (by simp)
      | ok ships =>
        simp only [hship] at hsucc
        cases hfind : List.find? (fun s => s.shipment_id == sid) ships with
        | none =>
          simp only [hfind] at hsucc
          exact absurd hsucc (by simp)
        | some shp2 =>
          simp only [hfind] at hsucc
          by_cases hacc :
              detailHasAccess (customerIdsOf (membershipsFor rows email)) shp2.customer_id = true
          · rw [if_pos hacc] at hsucc
            cases hev : eventsListLookup db sid with
            | error e =>
              simp only [hev] at hsucc
              exact absurd hsucc (by simp)
            | ok evs2 =>
              simp only [hev] at hsucc
              simp only [DetailResult.success.injEq] at hsucc
              obtain ⟨h5, h6⟩ := hsucc
              subst h5
              cases hcustomer : shp2.customer_id with
              | none =>
                rw [hcustomer, detailHasAccess_none] at hacc
                exact absurd hacc (by simp)
              | some c =>
                rw [hcustomer] at hacc
                simp only [detailHasAccess] at hacc
                rw [List.any_eq_true] at hacc
                obtain ⟨cid, hmem, hp⟩ := hacc
                refine ⟨c, rfl, cid, hmem, mem_customerIdsOf_ne _ _ hmem, ?_⟩
                simpa using hp
          · rw [if_neg hacc] at hsucc
            exact absurd hsucc (by simp)

/-- Witness for claim C10 at a concrete input: a null owning scope yields 403
for a caller that does hold a membership. -/
theorem c10_witness :
    detailStatus
      (apiShipmentDetailGET
        { allowedUsers := Except.ok [⟨("u@x.com"), some ("acme")⟩],
          shipments := Except.ok [⟨("S1"), none, 5⟩], events := [],
          eventsFail := fun _ => false } ("u@x.com") ("S1")) = 403 :=
  c10_null_scope_forbidden.1 _ _ _ _ _ ⟨("S1"), none, 5⟩ rfl rfl (by decide) rfl

/-- A datastore state whose latest-event lookup for shipment S1 fails while
everything else succeeds. -/
def dbEventFailure : Db :=
  { allowedUsers := Except.ok [⟨("u@x.com"), some ("acme")⟩],
    shipments := Except.ok [⟨("S1"), some ("ACME"), 5⟩],
    events := [⟨("S1"), 3, some ("DELIVERED")⟩],
    eventsFail := fun sid => sid == ("S1") }

/-- Counterexample to claim C6 as stated: the latest-event lookup for S1
fails, yet the list endpoint answers 200 with the shipment silently defaulted
to a null latest event code — the request does not fail with 500 and a
partially annotated response is produced. -/
theorem c6_counterexample :
    latestEventLookup dbEventFailure ("S1") = Except.error ("event query failed") ∧
    apiShipmentsGET dbEventFailure ("u@x.com") =
      ListResult.success [⟨⟨("S1"), some ("ACME"), 5⟩, none⟩] ("u@x.com") :=
  ⟨rfl, by decide⟩

/-- Claim C6 (amended): a failed membership lookup or a failed shipment query
fails the whole list request with 500, but the per-shipment latest-event
lookups never do — whenever those two table reads succeed the response is a
200, with any failed latest-event lookup silently defaulted to a null code. -/
theorem c6_list_error_propagation :
    (∀ (db : Db) (email e : String),
      db.allowedUsers = Except.error e →
      apiShipmentsGET db email = ListResult.failure 500 e) ∧
    (∀ (db : Db) (email e : String) (rows : List MemRow),
      db.allowedUsers = Except.ok rows →
      (membershipsFor rows email).isEmpty = false →
      (customerIdsOf (membershipsFor rows email)).isEmpty = false →
      db.shipments = Except.error e →
      apiShipmentsGET db email = ListResult.failure 500 e) ∧
    (∀ (db : Db) (email : String) (rows : List MemRow) (ships : List ShipRow),
      db.allowedUsers = Except.ok rows → db.shipments = Except.ok ships →
      listIsSuccess (apiShipmentsGET db email) = true) := by
  refine ⟨?_, ?_, ?_⟩
  · intro db email e h
    simp [apiShipmentsGET, h]
  · intro db email e rows h1 h2 h3 h4
    simp [apiShipmentsGET, h1, h2, h3, h4]
  · intro db email rows ships h1 h2
    by_cases hm : (membershipsFor rows email).isEmpty = true
    · simp [apiShipmentsGET, h1, hm, listIsSuccess]
    · by_cases hc : (customerIdsOf (membershipsFor rows email)).isEmpty = true
      · simp [apiShipmentsGET, h1, hm, hc, listIsSuccess]
      · simp [apiShipmentsGET, h1, hm, hc, h2, listIsSuccess]

/-- Witness for claim C6 at concrete inputs: a failed membership read gives
500, a failed shipment read gives 500, and with both reads succeeding the
response is a 200 even though every latest-event lookup fails. -/
theorem c6_witness :
    apiShipmentsGET
      { allowedUsers := Except.error ("auth table down"), shipments := Except.ok [],
        events := [], eventsFail := fun _ => false } ("u@x.com") =
      ListResult.failure 500 ("auth table down") ∧
    apiShipmentsGET
      { allowedUsers := Except.ok [⟨("u@x.com"), some ("acme")⟩],
        shipments := Except.error ("shipments down"), events := [],
        eventsFail := fun _ => false } ("u@x.com") =
      ListResult.failure 500 ("shipments down") ∧
    listIsSuccess (apiShipmentsGET dbEventFailure ("u@x.com")) = true :=
  ⟨c6_list_error_propagation.1 _ _ _ rfl,
    c6_list_error_propagation.2.1 _ _ _ _ rfl (by decide) (by decide) rfl,
    c6_list_error_propagation.2.2 dbEventFailure _ _ _ rfl rfl⟩

/-- An empty scope set matches no shipment. -/
theorem matchingShipments_nil (ships : List ShipRow) : matchingShipments ships [] = [] := by
  simp [matchingShipments]

/-- An empty scope set queries no shipment. -/
theorem queriedShipments_nil (ships : List ShipRow) : queriedShipments ships [] = [] := by
  rw [queriedShipments, orderedShipments, matchingShipments_nil]
  rfl

/-- Every successful list response carries the caller's email and exactly the
queried shipments, each with its latest event code attached. -/
theorem apiShipmentsGET_success_data :
    ∀ (db : Db) (email : String) (rows : List MemRow) (ships : List ShipRow)
      (data : List OutRow) (em : String),
      db.allowedUsers = Except.ok rows → db.shipments = Except.ok ships →
      apiShipmentsGET db email = ListResult.success data em →
      em = email ∧
      data = (queriedShipments ships (customerIdsOf (membershipsFor rows email))).map
        (attachLatest db) := by
  intro db email rows ships data em h1 h2 hres
  simp only [apiShipmentsGET, h1] at hres
  by_cases hm : (membershipsFor rows email).isEmpty = true
  · rw [if_pos hm] at hres
    simp only [ListResult.success.injEq] at hres
    obtain ⟨hdata, hem⟩ := hres
    refine ⟨hem.symm, ?_⟩
    rw [← hdata, List.isEmpty_iff.mp hm]
    rw [show customerIdsOf [] = [] from rfl, queriedShipments_nil]
    rfl
  · rw [if_neg hm] at hres
    by_cases hc : (customerIdsOf (membershipsFor rows email)).isEmpty = true
    · rw [if_pos hc] at hres
      simp only [ListResult.success.injEq] at hres
      obtain ⟨hdata, hem⟩ := hres
      refine ⟨hem.symm, ?_⟩
      rw [← hdata, List.isEmpty_iff.mp hc, queriedShipments_nil]
      rfl
    · rw [if_neg hc] at hres
      simp only [h2, ListResult.success.injEq] at hres
      obtain ⟨hdata, hem⟩ := hres
      exact ⟨hem.symm, hdata.symm⟩

/-- The shipment part of an attached row is the row itself. -/
theorem map_ship_map_attach (db : Db) (l : List ShipRow) :
    (l.map (attachLatest db)).map OutRow.ship = l := by
  induction l with
  | nil => rfl
  | cons a t ih => simp [attachLatest, ih]

/-- The ordered query result is sorted by last-event time, descending. -/
theorem sorted_orderedShipments (ships : List ShipRow) (cids : List String) :
    List.Sorted shipTimeGE (orderedShipments ships cids) :=
  List.sorted_insertionSort shipTimeGE (matchingShipments ships cids)

/-- Ordering preserves the number of matching rows. -/
theorem length_orderedShipments (ships : List ShipRow) (cids : List String) :
    (orderedShipments ships cids).length = (matchingShipments ships cids).length :=
  (List.perm_insertionSort shipTimeGE (matchingShipments ships cids)).length_eq

/-- Claim C7: every successful list response is ordered by last-event
timestamp descending, contains exactly the lesser of 300 and the number of
matching shipments (so 301 or more matches are truncated to 300), and every
returned row's last-event time dominates that of every matching row the
truncation dropped. -/
theorem c7_list_order_truncation :
    ∀ (db : Db) (email : String) (rows : List MemRow) (ships : List ShipRow)
      (data : List OutRow) (em : String),
      db.allowedUsers = Except.ok rows → db.shipments = Except.ok ships →
      apiShipmentsGET db email = ListResult.success data em →
      List.Sorted shipTimeGE (data.map OutRow.ship) ∧
      data.length =
        min 300 (matchingShipments ships (customerIdsOf (membershipsFor rows email))).length ∧
      (∀ x, x ∈ data →
        ∀ y, y ∈ (orderedShipments ships (customerIdsOf (membershipsFor rows email))).drop 300 →
          y.last_event_time ≤ x.ship.last_event_time) := by
  intro db email rows ships data em h1 h2 hres
  obtain ⟨hem, hdata⟩ := apiShipmentsGET_success_data db email rows ships data em h1 h2 hres
  subst hdata
  refine ⟨?_, ?_, ?_⟩
  · rw [map_ship_map_attach]
    exact List.Pairwise.sublist (List.take_sublist 300 _)
      (sorted_orderedShipments ships (customerIdsOf (membershipsFor rows email)))
  · rw [List.length_map, queriedShipments, List.length_take, length_orderedShipments]
  · intro x hx y hy
    obtain ⟨s, hs, hxs⟩ := List.mem_map.mp hx
    simp only [queriedShipments] at hs
    have hxship : x.ship = s := by rw [← hxs]; rfl
    have hpw : List.Pairwise shipTimeGE
        ((orderedShipments ships (customerIdsOf (membershipsFor rows email))).take 300 ++
          (orderedShipments ships (customerIdsOf (membershipsFor rows email))).drop 300) := by
      rw [List.take_append_drop]
      exact sorted_orderedShipments ships (customerIdsOf (membershipsFor rows email))
    have h3 := (List.pairwise_append.mp hpw).2.2
    rw [hxship]
    exact h3 s hs y hy

/-- Witness for claim C7 at a concrete input: two matching shipments come
back ordered by last-event time descending and with length the minimum of
300 and the match count. -/
theorem c7_witness :
    List.Sorted shipTimeGE
      (([⟨⟨("S2"), some ("acme"), 9⟩, none⟩, ⟨⟨("S1"), some ("acme"), 5⟩, none⟩] :
        List OutRow).map OutRow.ship) ∧
    ([⟨⟨("S2"), some ("acme"), 9⟩, none⟩, ⟨⟨("S1"), some ("acme"), 5⟩, none⟩] :
        List OutRow).length =
      min 300 (matchingShipments [⟨("S1"), some ("acme"), 5⟩, ⟨("S2"), some ("acme"), 9⟩]
        (customerIdsOf (membershipsFor [⟨("u@x.com"), some ("acme")⟩] ("u@x.com")))).length := by
  have h := c7_list_order_truncation
    { allowedUsers := Except.ok [⟨("u@x.com"), some ("acme")⟩],
      shipments := Except.ok [⟨("S1"), some ("acme"), 5⟩, ⟨("S2"), some ("acme"), 9⟩],
      events := [], eventsFail := fun _ => false }
    ("u@x.com") [⟨("u@x.com"), some ("acme")⟩]
    [⟨("S1"), some ("acme"), 5⟩, ⟨("S2"), some ("acme"), 9⟩]
    [⟨⟨("S2"), some ("acme"), 9⟩, none⟩, ⟨⟨("S1"), some ("acme"), 5⟩, none⟩]
    ("u@x.com") rfl rfl (by decide)
  exact ⟨h.1, h.2.1⟩

/-- The head of the descending-sorted event list is an element with maximal
event time. -/
theorem head_insertionSort_max (l : List DbEventRow) (e : DbEventRow)
    (h : (List.insertionSort evTimeGE l).head? = some e) :
    e ∈ l ∧ ∀ x, x ∈ l → x.event_time ≤ e.event_time := by
  cases hsl : List.insertionSort evTimeGE l with
  | nil => rw [hsl] at h; exact absurd h (by simp)
  | cons a rest =>
    rw [hsl] at h
    simp only [List.head?_cons, Option.some.injEq] at h
    have hperm := List.perm_insertionSort evTimeGE l
    rw [hsl] at hperm
    constructor
    · rw [← h]
      exact hperm.mem_iff.mp (List.mem_cons_self a rest)
    · intro x hx
      have hx2 : x ∈ a :: rest := hperm.mem_iff.mpr hx
      rcases List.mem_cons.mp hx2 with rfl | hx3
      · rw [← h]
      · have hsorted := List.sorted_insertionSort evTimeGE l
        rw [hsl] at hsorted
        rw [← h]
        exact List.rel_of_sorted_cons hsorted x hx3

/-- Claim C8: every shipment row of a successful list response carries a
latest event code obtained from events of that shipment's own identifier: the
code is null — in particular whenever the shipment has no events, which does
not fail the response — or it is the code of an event of that shipment whose
timestamp dominates every event of that shipment. -/
theorem c8_latest_event_scoped :
    ∀ (db : Db) (email : String) (rows : List MemRow) (ships : List ShipRow)
      (data : List OutRow) (em : String) (out : OutRow),
      db.allowedUsers = Except.ok rows → db.shipments = Except.ok ships →
      apiShipmentsGET db email = ListResult.success data em →
      out ∈ data →
      (eventsFor db.events out.ship.shipment_id = [] → out.latest_event_code = none) ∧
      (out.latest_event_code = none ∨
        ∃ e, e ∈ db.events ∧ e.shipment_id = out.ship.shipment_id ∧
          out.latest_event_code = e.event_code ∧
          ∀ e2, e2 ∈ db.events → e2.shipment_id = out.ship.shipment_id →
            e2.event_time ≤ e.event_time) := by
  intro db email rows ships data em out h1 h2 hres hout
  obtain ⟨hem, hdata⟩ := apiShipmentsGET_success_data db email rows ships data em h1 h2 hres
  subst hdata
  obtain ⟨s, hs, hxs⟩ := List.mem_map.mp hout
  subst hxs
  have hship : (attachLatest db s).ship = s := rfl
  rw [hship]
  cases hfail : db.eventsFail s.shipment_id with
  | true =>
    have hnone : (attachLatest db s).latest_event_code = none := by
      simp [attachLatest, latestEventLookup, hfail]
    exact ⟨fun _ => hnone, Or.inl hnone⟩
  | false =>
    have hlat : (attachLatest db s).latest_event_code = latestEventCode db.events s.shipment_id := by
      simp [attachLatest, latestEventLookup, hfail]
    constructor
    · intro hemp
      rw [hlat, latestEventCode, hemp]
      rfl
    · cases hd : (List.insertionSort evTimeGE (eventsFor db.events s.shipment_id)).head? with
      | none =>
        left
        rw [hlat, latestEventCode, hd]
      | some e =>
        obtain ⟨hmem, hmax⟩ := head_insertionSort_max _ _ hd
        have hmemE : e ∈ db.events ∧ e.shipment_id = s.shipment_id := by
          have hf := List.mem_filter.mp hmem
          exact ⟨hf.1, by simpa using hf.2⟩
        cases hcode : e.event_code with
        | none =>
          left
          rw [hlat, latestEventCode]
          simp only [hd, hcode]
        | some c =>
          by_cases hcempty : c == ("")
          · left
            rw [hlat, latestEventCode]
            simp only [hd, hcode]
            simp [hcempty]
          · right
            refine ⟨e, hmemE.1, hmemE.2, ?_, ?_⟩
            · rw [hlat, latestEventCode]
              simp only [hd, hcode]
              simp [hcempty]
            · intro e2 he2 hsid
              exact hmax e2 (List.mem_filter.mpr ⟨he2, by simp [hsid]⟩)

/-- Witness for claim C8 at a concrete input: a shipment with zero events
appears in a 200 response with a null latest event code. -/
theorem c8_witness :
    eventsFor [] ("S1") = [] ∧
    (⟨⟨("S1"), some ("acme"), 5⟩, none⟩ : OutRow).latest_event_code = none := by
  have h := c8_latest_event_scoped
    { allowedUsers := Except.ok [⟨("u@x.com"), some ("acme")⟩],
      shipments := Except.ok [⟨("S1"), some ("acme"), 5⟩],
      events := [], eventsFail := fun _ => false }
    ("u@x.com") [⟨("u@x.com"), some ("acme")⟩] [⟨("S1"), some ("acme"), 5⟩]
    [⟨⟨("S1"), some ("acme"), 5⟩, none⟩] ("u@x.com") ⟨⟨("S1"), some ("acme"), 5⟩, none⟩
    rfl rfl (by decide) (by decide)
  exact ⟨rfl, h.1 rfl⟩

/-- parseDateMs of the list page: a null or empty date string is not a number
(NaN), otherwise the runtime date parser yields milliseconds or NaN; NaN is
modelled as none and the runtime parser as an explicit function argument. -/
def parseDateMs (jsParse : String → Option Nat) (v : Option String) : Option Nat :=
  match v with
  | none => none
  | some s => if s == ("") then none else jsParse s

/-- The or-chain of JavaScript on nullable strings: the left value unless it
is null or empty. -/
def jsOrStr (a : Option String) (b : String) : String :=
  match a with
  | some s => if s == ("") then b else s
  | none => b

/-- getReference of the list page: the first truthy value among hawb, mawb,
po_number and the shipment identifier. -/
def getReference (s : Shipment) : String :=
  jsOrStr s.hawb (jsOrStr s.mawb (jsOrStr s.po_number s.shipment_id))

/-- getRoute of the list page: origin and destination joined by an arrow,
nulls coalesced to the empty string. -/
def getRoute (s : Shipment) : String :=
  (s.origin.getD "") ++ ("→") ++ (s.destination.getD "")

/-- The sortable columns of the list page. -/
inductive SortKey where
  | reference
  | route
  | status
  | eta_updated
  | last_event_time
deriving DecidableEq, Repr

/-- The sort direction of the list page. -/
inductive SortDir where
  | asc
  | desc
deriving DecidableEq, Repr

/-- The direction multiplier of the comparator. -/
def dirMul : SortDir → Int
  | SortDir.asc => 1
  | SortDir.desc => -1

/-- Sign-level model of localeCompare: lexicographic comparison of character
lists. -/
def lexCmp : List Char → List Char → Int
  | [], [] => 0
  | [], _ :: _ => -1
  | _ :: _, [] => 1
  | a :: as, b :: bs => if a < b then -1 else if b < a then 1 else lexCmp as bs

/-- asLower of the list page, on the character list. -/
def asLowerChars (s : String) : List Char := jsLowerChars s.toList

/-- The date comparison of the comparator: a left NaN sorts after everything
(1, before the direction multiplier is applied), a right NaN sorts before
(-1), and two numbers compare by difference times the multiplier. -/
def dateCmp (av bv : Option Nat) (m : Int) : Int :=
  match av, bv with
  | none, _ => 1
  | some _, none => -1
  | some x, some y => ((x : Int) - (y : Int)) * m

/-- The comparator of filteredAndSorted: date keys parse both values and
compare numerically with the NaN checks first; text keys compare the
lowercased key values by localeCompare; the result is multiplied by the
direction for the numeric and text comparisons but not for the NaN cases. -/
def sortComparator (jsParse : String → Option Nat) (key : SortKey) (dir : SortDir)
    (a b : Shipment) : Int :=
  match key with
  | SortKey.reference =>
    lexCmp (asLowerChars (getReference a)) (asLowerChars (getReference b)) * dirMul dir
  | SortKey.route =>
    lexCmp (asLowerChars (getRoute a)) (asLowerChars (getRoute b)) * dirMul dir
  | SortKey.status =>
    lexCmp (asLowerChars (deriveStatus a)) (asLowerChars (deriveStatus b)) * dirMul dir
  | SortKey.eta_updated =>
    dateCmp (parseDateMs jsParse a.eta_updated) (parseDateMs jsParse b.eta_updated) (dirMul dir)
  | SortKey.last_event_time =>
    dateCmp (parseDateMs jsParse a.last_event_time) (parseDateMs jsParse b.last_event_time)
      (dirMul dir)

/-- Claim C9: under the two date keys the comparator is numeric on the parsed
timestamps and a row with an absent or unparsable date is ordered after every
row with a parsable date in both directions (the NaN results 1 and -1 are
not multiplied by the direction); under the three text keys it is
lexicographic on the lowercased key values times the direction. -/
theorem c9_sort_comparator :
    ∀ (jsParse : String → Option Nat) (dir : SortDir) (a b : Shipment),
      (parseDateMs jsParse a.eta_updated = none →
        sortComparator jsParse SortKey.eta_updated dir a b = 1) ∧
      (∀ x, parseDateMs jsParse a.eta_updated = some x →
        parseDateMs jsParse b.eta_updated = none →
        sortComparator jsParse SortKey.eta_updated dir a b = -1) ∧
      (∀ x y, parseDateMs jsParse a.eta_updated = some x →
        parseDateMs jsParse b.eta_updated = some y →
        sortComparator jsParse SortKey.eta_updated dir a b = ((x : Int) - y) * dirMul dir) ∧
      (parseDateMs jsParse a.last_event_time = none →
        sortComparator jsParse SortKey.last_event_time dir a b = 1) ∧
      (∀ x, parseDateMs jsParse a.last_event_time = some x →
        parseDateMs jsParse b.last_event_time = none →
        sortComparator jsParse SortKey.last_event_time dir a b = -1) ∧
      (∀ x y, parseDateMs jsParse a.last_event_time = some x →
        parseDateMs jsParse b.last_event_time = some y →
        sortComparator jsParse SortKey.last_event_time dir a b = ((x : Int) - y) * dirMul dir) ∧
      sortComparator jsParse SortKey.reference dir a b =
        lexCmp (asLowerChars (getReference a)) (asLowerChars (getReference b)) * dirMul dir ∧
      sortComparator jsParse SortKey.route dir a b =
        lexCmp (asLowerChars (getRoute a)) (asLowerChars (getRoute b)) * dirMul dir ∧
      sortComparator jsParse SortKey.status dir a b =
        lexCmp (asLowerChars (deriveStatus a)) (asLowerChars (deriveStatus b)) * dirMul dir := by
  intro jsParse dir a b
  refine ⟨?_, ?_, ?_, ?_, ?_, ?_, rfl, rfl, rfl⟩
  · intro h
    simp [sortComparator, dateCmp, h]
  · intro x hx hb
    simp [sortComparator, dateCmp, hx, hb]
  · intro x y hx hy
    simp [sortComparator, dateCmp, hx, hy]
  · intro h
    simp [sortComparator, dateCmp, h]
  · intro x hx hb
    simp [sortComparator, dateCmp, hx, hb]
  · intro x y hx hy
    simp [sortComparator, dateCmp, hx, hy]

/-- Witness for claim C9 at concrete inputs: with a parser that knows one
date, a row with a null ETA compares after a row with a parsed ETA in both
directions. -/
theorem c9_witness :
    sortComparator (fun s => if s == ("2024-01-01") then some 100 else none)
      SortKey.eta_updated SortDir.asc
      { shipment_id := ("A"), hawb := none, mawb := none, po_number := none,
        customer_reference := none, origin := none, destination := none,
        current_status := none, eta_updated := none, last_event_time := none,
        latest_event_code := none }
      { shipment_id := ("B"), hawb := none, mawb := none, po_number := none,
        customer_reference := none, origin := none, destination := none,
        current_status := none, eta_updated := some ("2024-01-01"), last_event_time := none,
        latest_event_code := none } = 1 ∧
    sortComparator (fun s => if s == ("2024-01-01") then some 100 else none)
      SortKey.eta_updated SortDir.desc
      { shipment_id := ("A"), hawb := none, mawb := none, po_number := none,
        customer_reference := none, origin := none, destination := none,
        current_status := none, eta_updated := none, last_event_time := none,
        latest_event_code := none }
      { shipment_id := ("B"), hawb := none, mawb := none, po_number := none,
        customer_reference := none, origin := none, destination := none,
        current_status := none, eta_updated := some ("2024-01-01"), last_event_time := none,
        latest_event_code := none } = 1 :=
  ⟨(c9_sort_comparator (fun s => if s == ("2024-01-01") then some 100 else none)
      SortDir.asc
      { shipment_id := ("A"), hawb := none, mawb := none, po_number := none,
        customer_reference := none, origin := none, destination := none,
        current_status := none, eta_updated := none, last_event_time := none,
        latest_event_code := none }
      { shipment_id := ("B"), hawb := none, mawb := none, po_number := none,
        customer_reference := none, origin := none, destination := none,
        current_status := none, eta_updated := some ("2024-01-01"), last_event_time := none,
        latest_event_code := none }).1 rfl,
    (c9_sort_comparator (fun s => if s == ("2024-01-01") then some 100 else none)
      SortDir.desc
      { shipment_id := ("A"), hawb := none, mawb := none, po_number := none,
        customer_reference := none, origin := none, destination := none,
        current_status := none, eta_updated := none, last_event_time := none,
        latest_event_code := none }
      { shipment_id := ("B"), hawb := none, mawb := none, po_number := none,
        customer_reference := none, origin := none, destination := none,
        current_status := none, eta_updated := some ("2024-01-01"), last_event_time := none,
        latest_event_code := none }).1 rfl⟩
